import Mathlib

/-!
Verification development for the animation core of `icy_engine_egui`
(`src/animations/animator.rs` together with `MonitorSettings` from `src/lib.rs`).

Shallow embedding conventions:
* Rust `u32` / `usize` quantities are modelled as `Nat`; `i32` coordinates as `Int`.
  The only place where machine-width wrap-around is observable is the
  `layer as usize` cast in `set_layer_visible`, modelled explicitly with `% 2 ^ 64`.
* `f32` monitor parameters are modelled as `ℚ`; the code never computes with them,
  it only stores and copies them.
* A fallible Lua method returns `CallResult α × LuaBuffer`: the Lua userdata always
  survives the call, so the state is threaded through error returns unchanged
  (the Rust code returns an error before any mutation on those paths).
  A Rust panic (e.g. an unchecked slice index) is `CallResult.panicked`.
* Wall-clock time: `update_frame` takes the milliseconds elapsed since the last
  advance as an explicit argument, replacing the stored `Instant`.
-/

/-- `BackgroundEffect` from `src/lib.rs`. -/
inductive BackgroundEffect
  | noEffect
  | checkers
deriving DecidableEq

/-- An RGB color value (`egui::Color32` as used by `MonitorSettings`). -/
structure Color32 where
  r : Nat
  g : Nat
  b : Nat
deriving DecidableEq

/-- `MonitorSettings` from `src/lib.rs`: the display-effect parameter bundle. -/
structure MonitorSettings where
  use_filter : Bool
  monitor_type : Nat
  gamma : ℚ
  contrast : ℚ
  saturation : ℚ
  brightness : ℚ
  light : ℚ
  blur : ℚ
  curvature : ℚ
  scanlines : ℚ
  background_effect : BackgroundEffect
  selection_fg : Color32
  selection_bg : Color32
deriving DecidableEq

/-- `impl Default for MonitorSettings` from `src/lib.rs` (lines 63-81). -/
def MonitorSettings.default : MonitorSettings where
  use_filter := false
  monitor_type := 0
  gamma := 50
  contrast := 50
  saturation := 50
  brightness := 30
  light := 40
  blur := 30
  curvature := 10
  scanlines := 10
  background_effect := .noEffect
  selection_fg := ⟨0xAB, 0x00, 0xAB⟩
  selection_bg := ⟨0xAB, 0xAB, 0xAB⟩

/-- Modelled from the spec: `MonitorSettings::neutral()` is called by
`Animator::default()` but its definition is not among the provided sources.
The spec (§7, "User-visible failure") only ever speaks of *default* settings
being returned for empty or out-of-range playback, so the neutral bundle is
modelled as the default settings bundle. -/
def MonitorSettings.neutral : MonitorSettings := MonitorSettings.default

/-- The character attribute carried by a cell and by the caret
(`icy_engine::TextAttribute`, external collaborator): foreground and
background palette indices plus the font page. -/
structure TextAttribute where
  fg : Nat
  bg : Nat
  fontPage : Nat
deriving DecidableEq

/-- `icy_engine::AttributedChar` (external collaborator): a native-encoding
character plus its attribute (the source field `attribute` is a Lean keyword,
so it is named `attr` here). -/
structure AttributedChar where
  ch : Char
  attr : TextAttribute
deriving DecidableEq

/-- Default attribute: white (7) on black (0), font page 0. -/
def TextAttribute.default : TextAttribute := ⟨7, 0, 0⟩

/-- The blank cell returned when reading an unset grid position. -/
def AttributedChar.default : AttributedChar := ⟨' ', TextAttribute.default⟩

/-- `icy_engine::Layer` (external collaborator), with the parts this crate
uses: visibility flag, rendering offset, and the character grid. The grid is
modelled as an association list from coordinates to cells; the real layer
auto-extends, so out-of-canvas coordinates are simply stored. -/
structure Layer where
  is_visible : Bool
  offset : Int × Int
  cells : List ((Int × Int) × AttributedChar)
deriving DecidableEq

/-- A fresh, empty, visible layer at offset (0,0). -/
def Layer.default : Layer := ⟨true, (0, 0), []⟩

/-- `Layer::set_char` (external collaborator, modelled): store `ch` at `pos`,
replacing any previous cell there. -/
def Layer.set_char (l : Layer) (pos : Int × Int) (c : AttributedChar) : Layer :=
  { l with cells := (pos, c) :: l.cells.filter (fun e => e.1 ≠ pos) }

/-- `Layer::get_char` (external collaborator, modelled): read the cell at
`pos`, a blank default when unset. -/
def Layer.get_char (l : Layer) (pos : Int × Int) : AttributedChar :=
  ((l.cells.find? (fun e => e.1 = pos)).map (fun e => e.2)).getD AttributedChar.default

/-- `Layer::set_offset` (external collaborator, modelled). -/
def Layer.set_offset (l : Layer) (pos : Int × Int) : Layer :=
  { l with offset := pos }

/-- `icy_engine::BufferType`: the five legacy encodings a buffer can declare. -/
inductive BufferType
  | unicode
  | cp437
  | petscii
  | atascii
  | viewdata
deriving DecidableEq

/-- `icy_engine::Buffer` (external collaborator), restricted to the parts the
animator reads and writes: declared encoding, size, layers, palette and the
terminal-buffer flag set by `display_frame`. -/
structure Buffer where
  buffer_type : BufferType
  width : Int
  height : Int
  layers : List Layer
  palette : List (Nat × Nat × Nat)
  is_terminal_buffer : Bool
deriving DecidableEq

/-- `Buffer::new(size)` (external collaborator, modelled): a blank buffer of
the given size. -/
def Buffer.new (w h : Int) : Buffer where
  buffer_type := .cp437
  width := w
  height := h
  layers := []
  palette := []
  is_terminal_buffer := false

/-- `Buffer::create(size)` (external collaborator, modelled): the constructor
used by the `new_buffer` host function; starts with one default layer. -/
def Buffer.create (w h : Int) : Buffer :=
  { Buffer.new w h with layers := [Layer.default] }

/-- `icy_engine::Caret` (external collaborator): cursor position, attribute
and insert-mode flag. -/
structure Caret where
  pos : Int × Int
  attr : TextAttribute
  insert_mode : Bool
deriving DecidableEq

/-- `Caret::default()`. -/
def Caret.default : Caret := ⟨(0, 0), TextAttribute.default, false⟩

/-- The script-level errors raised by the animator's Lua surface, keyed by the
error messages built in `animator.rs`:
* `outOfRange idx bound` — `"Layer {idx} out of range (0..<{bound})"` /
  `"Current layer {idx} out of range (0..<{bound})"`;
* `invalidInput` — `"Empty string"` for an empty character argument;
* `frameLimitExceeded` — `"Maximum number of frames reached"`;
* `typeMismatch` — `"UserData parameter required"`;
* `notFound` / `loadFailed` — the two `load_buffer` failures. -/
inductive ScriptErr
  | outOfRange (idx bound : Nat)
  | invalidInput
  | frameLimitExceeded
  | typeMismatch
  | notFound
  | loadFailed
deriving DecidableEq

/-- Outcome of one Lua-visible call: a value, a script error, or a Rust panic. -/
inductive CallResult (α : Type) where
  | ok (val : α)
  | err (e : ScriptErr)
  | panicked
deriving DecidableEq

/-- The `LuaBuffer` userdata from `animator.rs`: active-layer index, caret and
the wrapped buffer. -/
structure LuaBuffer where
  cur_layer : Nat
  caret : Caret
  buffer : Buffer
deriving DecidableEq

/-- The external `icy_engine` parsers' `convert_from_unicode` (collaborator,
§4.1 of the spec: a deterministic, total, non-panicking map per encoding),
modelled as the identity embedding; no claim depends on the concrete tables. -/
def externalFromUnicode (_bt : BufferType) (_fontPage : Nat) (c : Char) : Char := c

/-- The external parsers' `convert_to_unicode` (collaborator, modelled as the
identity, matching `externalFromUnicode`). -/
def externalToUnicode (_bt : BufferType) (c : Char) : Char := c

/-- `LuaBuffer::convert_from_unicode` (animator.rs lines 51-72): take the first
scalar of `s` (an empty string is an `"Empty string"` error) and convert it to
the buffer's native encoding using the caret's font page. -/
def LuaBuffer.convert_from_unicode (b : LuaBuffer) (s : String) : CallResult Char :=
  match s.data with
  | [] => .err .invalidInput
  | c :: _ =>
    match b.buffer.buffer_type with
    | .unicode => .ok c
    | bt => .ok (externalFromUnicode bt b.caret.attr.fontPage c)

/-- `LuaBuffer::convert_to_unicode` (animator.rs lines 74-92). -/
def LuaBuffer.convert_to_unicode (b : LuaBuffer) (c : AttributedChar) : String :=
  match b.buffer.buffer_type with
  | .unicode => c.ch.toString
  | bt => (externalToUnicode bt c.ch).toString

/-- The `layer` field setter (animator.rs lines 115-129): activate layer `val`
when in range, else fail with an out-of-range error; never mutates on failure. -/
def LuaBuffer.set_layer (b : LuaBuffer) (val : Nat) : CallResult Unit × LuaBuffer :=
  if val < b.buffer.layers.length then
    (.ok (), { b with cur_layer := val })
  else
    (.err (.outOfRange val b.buffer.layers.length), b)

/-- `set_char` (animator.rs lines 179-195): reject an out-of-range active
layer first, then convert the character and write it with the caret's
attribute at (x,y) on the active layer. -/
def LuaBuffer.set_char (b : LuaBuffer) (x y : Int) (s : String) :
    CallResult Unit × LuaBuffer :=
  if b.cur_layer ≥ b.buffer.layers.length then
    (.err (.outOfRange b.cur_layer b.buffer.layers.length), b)
  else
    match b.convert_from_unicode s with
    | .err e => (.err e, b)
    | .panicked => (.panicked, b)
    | .ok c =>
      match b.buffer.layers[b.cur_layer]? with
      | none => (.panicked, b)
      | some l =>
        let ac : AttributedChar := ⟨c, b.caret.attr⟩
        (.ok (), { b with buffer :=
          { b.buffer with layers := b.buffer.layers.set b.cur_layer (l.set_char (x, y) ac) } })

/-- `get_char` (animator.rs lines 197-211): bounds-check the active layer,
then read and decode the cell at (x,y). -/
def LuaBuffer.get_char (b : LuaBuffer) (x y : Int) : CallResult String × LuaBuffer :=
  if b.cur_layer ≥ b.buffer.layers.length then
    (.err (.outOfRange b.cur_layer b.buffer.layers.length), b)
  else
    match b.buffer.layers[b.cur_layer]? with
    | none => (.panicked, b)
    | some l => (.ok (b.convert_to_unicode (l.get_char (x, y))), b)

/-- `print` (animator.rs lines 296-307), one character at a time: convert the
scalar, then index the active layer **without any bounds check** (the lone
Lua method that skips it) and write at the caret, advancing x by one. -/
def LuaBuffer.print_chars : LuaBuffer → List Char → CallResult Unit × LuaBuffer
  | b, [] => (.ok (), b)
  | b, c :: cs =>
    let pos := b.caret.pos
    let curAttr := b.caret.attr
    match b.convert_from_unicode c.toString with
    | .err e => (.err e, b)
    | .panicked => (.panicked, b)
    | .ok ch =>
      match b.buffer.layers[b.cur_layer]? with
      | none => (.panicked, b)
      | some l =>
        let ac : AttributedChar := ⟨ch, curAttr⟩
        let b2 : LuaBuffer :=
          { b with
            buffer := { b.buffer with
              layers := b.buffer.layers.set b.cur_layer (l.set_char pos ac) }
            caret := { b.caret with pos := (pos.1 + 1, pos.2) } }
        LuaBuffer.print_chars b2 cs

/-- The `print` method: iterate `print_chars` over the Unicode scalars of `s`. -/
def LuaBuffer.print (b : LuaBuffer) (s : String) : CallResult Unit × LuaBuffer :=
  LuaBuffer.print_chars b s.data

/-- `gotoxy` (animator.rs lines 309-312). -/
def LuaBuffer.gotoxy (b : LuaBuffer) (x y : Int) : CallResult Unit × LuaBuffer :=
  (.ok (), { b with caret := { b.caret with pos := (x, y) } })

/-- `set_layer_position` (animator.rs lines 314-331): set layer `layer`'s
offset when in range, else fail without mutating. -/
def LuaBuffer.set_layer_position (b : LuaBuffer) (layer : Nat) (x y : Int) :
    CallResult Unit × LuaBuffer :=
  if layer < b.buffer.layers.length then
    match b.buffer.layers[layer]? with
    | none => (.panicked, b)
    | some l =>
      (.ok (), { b with buffer :=
        { b.buffer with layers := b.buffer.layers.set layer (l.set_offset (x, y)) } })
  else
    (.err (.outOfRange layer b.buffer.layers.length), b)

/-- The Rust `i32 as usize` cast used by `set_layer_visible`: sign-extend to
64 bits and reinterpret, so negative indices become huge and fail the bound. -/
def usizeOfI32 (v : Int) : Nat := (v % (2 : Int) ^ 64).toNat

/-- `set_layer_visible` (animator.rs lines 348-366): the layer argument is an
`i32` cast to `usize`; set the visibility flag when in range, else fail
without mutating. -/
def LuaBuffer.set_layer_visible (b : LuaBuffer) (layer : Int) (is_visible : Bool) :
    CallResult Unit × LuaBuffer :=
  let idx := usizeOfI32 layer
  if idx < b.buffer.layers.length then
    match b.buffer.layers[idx]? with
    | none => (.panicked, b)
    | some l =>
      (.ok (), { b with buffer :=
        { b.buffer with layers := b.buffer.layers.set idx { l with is_visible := is_visible } } })
  else
    (.err (.outOfRange idx b.buffer.layers.length), b)

/-- `get_layer_visible` (animator.rs lines 368-381). -/
def LuaBuffer.get_layer_visible (b : LuaBuffer) (layer : Nat) :
    CallResult Bool × LuaBuffer :=
  if layer < b.buffer.layers.length then
    match b.buffer.layers[layer]? with
    | none => (.panicked, b)
    | some l => (.ok l.is_visible, b)
  else
    (.err (.outOfRange layer b.buffer.layers.length), b)

/-- `clear` (animator.rs lines 383-387): reset the caret and replace the
buffer with a blank one of the same size. Note that `cur_layer` is *not*
reset, which is how the active layer can legitimately run past the layer
count of the fresh buffer. -/
def LuaBuffer.clear (b : LuaBuffer) : CallResult Unit × LuaBuffer :=
  (.ok (), { b with caret := Caret.default, buffer := Buffer.new b.buffer.width b.buffer.height })

/-- One captured frame: the `(Buffer, MonitorSettings, u32)` tuple pushed by
`lua_next_frame`; `speed` is the display duration in milliseconds. -/
structure Frame where
  buffer : Buffer
  settings : MonitorSettings
  speed : Nat
deriving DecidableEq

/-- `DEFAULT_SPEEED` (animator.rs line 27, source spelling kept): 100 ms,
"like animated gifs". -/
def DEFAULT_SPEEED : Nat := 100

/-- `MAX_FRAMES` (animator.rs line 391). -/
def MAX_FRAMES : Nat := 4096

/-- The `Animator` playback state (animator.rs lines 14-26). The unused
`scene` / `buffers` fields are omitted; the `Instant` is replaced by passing
elapsed milliseconds to `update_frame` explicitly. -/
structure Animator where
  frames : List Frame
  current_monitor_settings : MonitorSettings
  cur_frame : Nat
  is_loop : Bool
  is_playing : Bool
  speed : Nat
deriving DecidableEq

/-- `Animator::default()` (animator.rs lines 29-43). -/
def Animator.default : Animator where
  frames := []
  current_monitor_settings := MonitorSettings.neutral
  cur_frame := 0
  is_loop := false
  is_playing := false
  speed := DEFAULT_SPEEED

/-- `Animator::lua_next_frame` (animator.rs lines 393-416): refuse with the
frame-limit error when `frames.len() > MAX_FRAMES`, otherwise append a
structural copy of the buffer (layers, palette, fonts onto a fresh buffer of
the same size) together with the current monitor settings and speed. -/
def Animator.lua_next_frame (a : Animator) (buffer : Buffer) :
    CallResult Unit × Animator :=
  if a.frames.length > MAX_FRAMES then
    (.err .frameLimitExceeded, a)
  else
    let frame : Buffer :=
      { Buffer.new buffer.width buffer.height with
        layers := buffer.layers, palette := buffer.palette }
    (.ok (), { a with
      frames := a.frames ++ [⟨frame, a.current_monitor_settings, a.speed⟩] })

/-- `Animator::set_is_playing` (animator.rs lines 547-549). -/
def Animator.set_is_playing (a : Animator) (is_playing : Bool) : Animator :=
  { a with is_playing := is_playing }

/-- `Animator::set_cur_frame` (animator.rs lines 554-557): seek to `i` and
reload `speed` from that frame's stored duration; `none` models the Rust
index panic when `i` is out of range. -/
def Animator.set_cur_frame (a : Animator) (i : Nat) : Option Animator :=
  match a.frames[i]? with
  | none => none
  | some f => some { a with cur_frame := i, speed := f.speed }

/-- `Animator::set_is_loop` (animator.rs lines 562-564). -/
def Animator.set_is_loop (a : Animator) (is_loop : Bool) : Animator :=
  { a with is_loop := is_loop }

/-- `Animator::set_speed` (animator.rs lines 569-571): override the active
duration independently of the stored per-frame duration. -/
def Animator.set_speed (a : Animator) (speed : Nat) : Animator :=
  { a with speed := speed }

/-- `Animator::next_frame` (animator.rs lines 617-630): step the playback
index; on running past the end either wrap to 0 with the default speed
(looping) or clamp to the last index and pause. `none` models the (actually
unreachable) index panic of `self.frames[self.cur_frame].2`. -/
def Animator.next_frame (a : Animator) : Option Animator :=
  let cur := a.cur_frame + 1
  if cur ≥ a.frames.length then
    if a.is_loop then
      some { a with speed := DEFAULT_SPEEED, cur_frame := 0 }
    else
      some { a with cur_frame := cur - 1, is_playing := false }
  else
    match a.frames[cur]? with
    | none => none
    | some f => some { a with cur_frame := cur, speed := f.speed }

/-- `Animator::display_frame` (animator.rs lines 595-615): a `&self` read.
Returns the (unchanged) animator, the snapshot pushed to the renderer's
buffer view (`none` when the current index is out of range or the sequence is
empty), and the emitted `MonitorSettings` (the frame's settings, or the
default bundle in the missing-frame case). -/
def Animator.display_frame (a : Animator) :
    Animator × Option Buffer × MonitorSettings :=
  match a.frames[a.cur_frame]? with
  | some fr =>
    let frame : Buffer :=
      { Buffer.new fr.buffer.width fr.buffer.height with
        is_terminal_buffer := true
        layers := fr.buffer.layers
        palette := fr.buffer.palette }
    (a, some frame, fr.settings)
  | none => (a, none, MonitorSettings.default)

/-- `Animator::update_frame` (animator.rs lines 573-583) with the elapsed
milliseconds since the last advance as an explicit argument: when playing and
strictly more than `speed` ms have passed, advance one frame, re-display, and
store the emitted settings; otherwise do nothing. Returns the new state and
the cloned `current_monitor_settings`; `none` models a panic. -/
def Animator.update_frame (a : Animator) (elapsed : Nat) :
    Option (Animator × MonitorSettings) :=
  if a.is_playing = true ∧ elapsed > a.speed then
    match a.next_frame with
    | none => none
    | some a1 =>
      let disp := a1.display_frame
      let a2 := { disp.1 with current_monitor_settings := disp.2.2 }
      some (a2, a2.current_monitor_settings)
  else
    some (a, a.current_monitor_settings)

/-- `Animator::start_playback` (animator.rs lines 585-593). -/
def Animator.start_playback (a : Animator) : Animator × Option Buffer × MonitorSettings :=
  let a1 := { a with is_playing := true, cur_frame := 0 }
  a1.display_frame

/-- A forced playback tick: one `update_frame` call spaced strictly beyond
the currently active duration (elapsed = speed + 1). The `none` fallback is
unreachable (`update_frame` never panics). -/
def Animator.forced_tick (a : Animator) : Animator :=
  match a.update_frame (a.speed + 1) with
  | some p => p.1
  | none => a

/-- The Lua globals the animator reads and writes (animator.rs lines 489-537):
the `cur_frame` progress counter plus the eight ambient monitor parameters. -/
structure Globals where
  cur_frame : Nat
  monitor_type : Nat
  monitor_gamma : ℚ
  monitor_contrast : ℚ
  monitor_saturation : ℚ
  monitor_brightness : ℚ
  monitor_blur : ℚ
  monitor_curvature : ℚ
  monitor_scanlines : ℚ
deriving DecidableEq

/-- The globals as seeded by `Animator::run` before execution (animator.rs
lines 521-538): `cur_frame = 1` and the monitor parameters of the fresh
animator's (neutral) settings. -/
def initial_globals : Globals where
  cur_frame := 1
  monitor_type := MonitorSettings.neutral.monitor_type
  monitor_gamma := MonitorSettings.neutral.gamma
  monitor_contrast := MonitorSettings.neutral.contrast
  monitor_saturation := MonitorSettings.neutral.saturation
  monitor_brightness := MonitorSettings.neutral.brightness
  monitor_blur := MonitorSettings.neutral.blur
  monitor_curvature := MonitorSettings.neutral.curvature
  monitor_scanlines := MonitorSettings.neutral.scanlines

/-- The `next_frame` host function (animator.rs lines 489-510), called with a
valid `LuaBuffer` argument: first set the `cur_frame` global to
`frames.len() + 2`, then copy the ambient monitor globals into
`current_monitor_settings`, then attempt the capture. The global is bumped
even when the capture fails. -/
def host_next_frame (buf : Buffer) (st : Animator × Globals) :
    CallResult Unit × Animator × Globals :=
  let a := st.1
  let g := st.2
  let g1 := { g with cur_frame := a.frames.length + 2 }
  let a1 := { a with current_monitor_settings :=
    { a.current_monitor_settings with
      monitor_type := g.monitor_type
      gamma := g.monitor_gamma
      contrast := g.monitor_contrast
      saturation := g.monitor_saturation
      brightness := g.monitor_brightness
      blur := g.monitor_blur
      curvature := g.monitor_curvature
      scanlines := g.monitor_scanlines } }
  let res := a1.lua_next_frame buf
  (res.1, res.2, g1)

/-- A script run that performs `k` consecutive `next_frame(buf)` calls,
starting from the state `Animator::run` sets up (fresh animator, seeded
globals). Capture errors abort a real script, but the animator and globals
are exactly those after the failing call, which is what the claims observe. -/
def run_captures (buf : Buffer) : Nat → Animator × Globals
  | 0 => (Animator.default, initial_globals)
  | k + 1 => (host_next_frame buf (run_captures buf k)).2

/-- The hex-digit class of the preprocessing regex, `[0-9a-fA-F]`. -/
def isHexDigitCh (c : Char) : Bool :=
  (decide ('0' ≤ c) && decide (c ≤ '9')) ||
  (decide ('a' ≤ c) && decide (c ≤ 'f')) ||
  (decide ('A' ≤ c) && decide (c ≤ 'F'))

/-- Numeric value of a hex digit (both cases). -/
def hexDigitVal (c : Char) : Nat :=
  if decide ('0' ≤ c) && decide (c ≤ '9') then c.toNat - 48
  else if decide ('a' ≤ c) && decide (c ≤ 'f') then c.toNat - 87
  else if decide ('A' ≤ c) && decide (c ≤ 'F') then c.toNat - 55
  else 0

/-- The decimal `r,g,b` replacement text produced for one matched color
literal (animator.rs lines 429-433). -/
def rgbReplacement (r g b : Nat) : List Char :=
  (Nat.repr r).data ++ ',' :: (Nat.repr g).data ++ ',' :: (Nat.repr b).data

/-- The textual preprocessing pass of `Animator::run` (animator.rs lines
423-435): scan left to right; every occurrence of `#` followed by six hex
digits is replaced by the decimal `r,g,b` triple of its three byte pairs
(leftmost-first, non-overlapping, scanning resumes after the match, exactly
the `Regex::replace_all` semantics); all other characters are copied. -/
def preprocessChars : List Char → List Char
  | [] => []
  | '#' :: d1 :: d2 :: d3 :: d4 :: d5 :: d6 :: rest =>
    if isHexDigitCh d1 && isHexDigitCh d2 && isHexDigitCh d3 &&
       isHexDigitCh d4 && isHexDigitCh d5 && isHexDigitCh d6 then
      rgbReplacement
        (16 * hexDigitVal d1 + hexDigitVal d2)
        (16 * hexDigitVal d3 + hexDigitVal d4)
        (16 * hexDigitVal d5 + hexDigitVal d6) ++ preprocessChars rest
    else
      '#' :: preprocessChars (d1 :: d2 :: d3 :: d4 :: d5 :: d6 :: rest)
  | c :: cs => c :: preprocessChars cs

/-- String-level wrapper of the preprocessing pass. -/
def preprocess (s : String) : String := ⟨preprocessChars s.data⟩

/-- `true` iff some position of the list starts a `#`+6-hex-digit match, i.e.
iff the preprocessing regex would fire somewhere. -/
def containsHexColor : List Char → Bool
  | '#' :: d1 :: d2 :: d3 :: d4 :: d5 :: d6 :: rest =>
    (isHexDigitCh d1 && isHexDigitCh d2 && isHexDigitCh d3 &&
     isHexDigitCh d4 && isHexDigitCh d5 && isHexDigitCh d6) ||
    containsHexColor (d1 :: d2 :: d3 :: d4 :: d5 :: d6 :: rest)
  | _ :: cs => containsHexColor cs
  | [] => false

/-- A small concrete canvas (`new_buffer(4,2)`), used as test fixture. -/
def sampleBuffer : Buffer := Buffer.create 4 2

/-- A concrete captured frame with duration `d` ms. -/
def sampleFrame (d : Nat) : Frame := ⟨sampleBuffer, MonitorSettings.default, d⟩

/-- An animator holding `n` identical captured frames. -/
def cappedAnimator (n : Nat) : Animator :=
  { Animator.default with frames := List.replicate n (sampleFrame 100) }

/-- A playing, looping, single-frame animator whose frame stores 250 ms and
whose active duration is that stored duration (as after `set_cur_frame 0`). -/
def oneFrameLoop : Animator where
  frames := [sampleFrame 250]
  current_monitor_settings := MonitorSettings.neutral
  cur_frame := 0
  is_loop := true
  is_playing := true
  speed := 250

/-- A playing, non-looping, two-frame animator positioned on frame 0 whose
stored duration (and active duration) is 250 ms. -/
def twoFrames : Animator where
  frames := [sampleFrame 250, sampleFrame 40]
  current_monitor_settings := MonitorSettings.neutral
  cur_frame := 0
  is_loop := false
  is_playing := true
  speed := 250

/-- `twoFrames` after pausing. -/
def pausedTwo : Animator := { twoFrames with is_playing := false }

/-- A single-frame animator whose active duration was overridden by
`set_speed(999)` away from the frame's stored 250 ms. -/
def overriddenAnim : Animator where
  frames := [sampleFrame 250]
  current_monitor_settings := MonitorSettings.neutral
  cur_frame := 0
  is_loop := false
  is_playing := false
  speed := 999

/-- A single-frame animator already carrying frame 0's stored duration. -/
def seekAnim : Animator := { overriddenAnim with speed := 250 }

/-- A `LuaBuffer` whose active layer index (1) is out of range for its
single-layer buffer — the state `clear()` leaves behind when the script had
selected layer 1 of a multi-layer canvas beforehand. -/
def strandedBuffer : LuaBuffer :=
  ⟨1, Caret.default, { Buffer.new 4 2 with layers := [Layer.default] }⟩

/-- The concrete scenario script of the spec, containing the color literal. -/
def sampleScript : String := "print(#FF00AA)"

lemma usizeOfI32_natCast (n : Nat) (h : n < 2 ^ 31) : usizeOfI32 (n : Int) = n := by
  unfold usizeOfI32
  have h1 : (0 : Int) ≤ (n : Int) := Int.natCast_nonneg n
  have h2 : (n : Int) < 2 ^ 64 := by push_cast; omega
  rw [Int.emod_eq_of_lt h1 h2, Int.toNat_natCast]

lemma display_frame_fst (a : Animator) : a.display_frame.1 = a := by
  unfold Animator.display_frame
  split <;> rfl

lemma update_frame_not_playing (a : Animator) (e : Nat) (h : a.is_playing = false) :
    a.update_frame e = some (a, a.current_monitor_settings) := by
  unfold Animator.update_frame
  rw [if_neg]
  rintro ⟨hp, -⟩
  rw [h] at hp
  cases hp

lemma update_frame_small_elapsed (a : Animator) (e : Nat) (h : e ≤ a.speed) :
    a.update_frame e = some (a, a.current_monitor_settings) := by
  unfold Animator.update_frame
  rw [if_neg]
  rintro ⟨-, hgt⟩
  omega

lemma next_frame_advance (a : Animator) (f : Frame)
    (hf : a.frames[a.cur_frame + 1]? = some f) :
    a.next_frame = some { a with cur_frame := a.cur_frame + 1, speed := f.speed } := by
  have hlt : a.cur_frame + 1 < a.frames.length := by
    by_contra hge
    rw [List.getElem?_eq_none (by omega)] at hf
    cases hf
  unfold Animator.next_frame
  rw [if_neg (by omega), hf]

lemma next_frame_clamp (a : Animator) (hge : a.frames.length ≤ a.cur_frame + 1)
    (hloop : a.is_loop = false) :
    a.next_frame = some { a with cur_frame := a.cur_frame + 1 - 1, is_playing := false } := by
  unfold Animator.next_frame
  rw [if_pos (by omega), if_neg (by rw [hloop]; exact Bool.false_ne_true)]

lemma next_frame_wrap (a : Animator) (hge : a.frames.length ≤ a.cur_frame + 1)
    (hloop : a.is_loop = true) :
    a.next_frame = some { a with speed := DEFAULT_SPEEED, cur_frame := 0 } := by
  unfold Animator.next_frame
  rw [if_pos (by omega), if_pos hloop]

lemma update_frame_advance (a : Animator) (e : Nat) (a1 : Animator)
    (hp : a.is_playing = true) (he : a.speed < e) (hn : a.next_frame = some a1) :
    a.update_frame e =
      some ({ a1 with current_monitor_settings := a1.display_frame.2.2 },
            a1.display_frame.2.2) := by
  unfold Animator.update_frame
  rw [if_pos ⟨hp, he⟩, hn]
  simp only [display_frame_fst]

lemma forced_tick_not_playing (a : Animator) (h : a.is_playing = false) :
    a.forced_tick = a := by
  unfold Animator.forced_tick
  rw [update_frame_not_playing a _ h]

lemma forced_tick_of_next (a a1 : Animator) (hp : a.is_playing = true)
    (hn : a.next_frame = some a1) :
    a.forced_tick = { a1 with current_monitor_settings := a1.display_frame.2.2 } := by
  unfold Animator.forced_tick
  rw [update_frame_advance a (a.speed + 1) a1 hp (by omega) hn]

lemma nonloop_iterate_inv (a : Animator) (N : Nat) (hN : a.frames.length = N)
    (h1 : 1 < N) (hcur : a.cur_frame = 0) (hplay : a.is_playing = true)
    (hloop : a.is_loop = false) (k : Nat) :
    (Animator.forced_tick^[k] a).frames = a.frames
  ∧ (Animator.forced_tick^[k] a).is_loop = false
  ∧ (Animator.forced_tick^[k] a).cur_frame = min k (N - 1)
  ∧ (Animator.forced_tick^[k] a).is_playing = decide (k < N) := by
  induction k with
  | zero =>
    refine ⟨rfl, hloop, by simpa using hcur, ?_⟩
    rw [Function.iterate_zero_apply, hplay]
    simp
    omega
  | succ k ih =>
    obtain ⟨hf, hl, hc, hp⟩ := ih
    rw [Function.iterate_succ_apply']
    set s := Animator.forced_tick^[k] a with hs
    by_cases hkN : k < N
    · have hpl : s.is_playing = true := by rw [hp]; simp [hkN]
      by_cases hk2 : k + 1 < N
      · have hlt : s.cur_frame + 1 < s.frames.length := by
          rw [hf, hN, hc]; omega
        have hn := next_frame_advance s _ (List.getElem?_eq_getElem hlt)
        rw [forced_tick_of_next s _ hpl hn]
        refine ⟨by simpa using hf, by simpa using hl, ?_, ?_⟩
        · simp only []
          rw [hc]  -- ??
          omega
        · simp only []
          rw [hpl]
          simp [hk2]
      · have hge : s.frames.length ≤ s.cur_frame + 1 := by
          rw [hf, hN, hc]; omega
        have hn := next_frame_clamp s hge hl
        rw [forced_tick_of_next s _ hpl hn]
        refine ⟨by simpa using hf, by simpa using hl, ?_, ?_⟩
        · simp only []
          rw [hc]
          omega
        · simp only []
          simp
          omega
    · have hpl : s.is_playing = false := by
        rw [hp]
        simp
        omega
      rw [forced_tick_not_playing s hpl]
      refine ⟨hf, hl, ?_, ?_⟩
      · rw [hc]; omega
      · rw [hpl]; simp; omega

lemma lua_next_frame_frames_length (a : Animator) (buf : Buffer) :
    (a.lua_next_frame buf).2.frames.length =
      if a.frames.length > MAX_FRAMES then a.frames.length else a.frames.length + 1 := by
  unfold Animator.lua_next_frame
  split <;> simp_all

lemma host_next_frame_cur_frame (buf : Buffer) (st : Animator × Globals) :
    (host_next_frame buf st).2.2.cur_frame = st.1.frames.length + 2 := by
  unfold host_next_frame
  rfl

lemma host_next_frame_frames_length (buf : Buffer) (st : Animator × Globals) :
    (host_next_frame buf st).2.1.frames.length =
      if st.1.frames.length > MAX_FRAMES then st.1.frames.length
      else st.1.frames.length + 1 := by
  unfold host_next_frame
  simp only [lua_next_frame_frames_length]

lemma run_captures_inv (buf : Buffer) (k : Nat) :
    (run_captures buf k).1.frames.length = min k (MAX_FRAMES + 1)
  ∧ (run_captures buf k).2.cur_frame =
      if k = 0 then 1 else min (k - 1) (MAX_FRAMES + 1) + 2 := by
  induction k with
  | zero => exact ⟨rfl, rfl⟩
  | succ k ih =>
    obtain ⟨hlen, hcf⟩ := ih
    have hstep : run_captures buf (k + 1) = (host_next_frame buf (run_captures buf k)).2 := rfl
    constructor
    · rw [hstep, host_next_frame_frames_length, hlen]
      simp only [show MAX_FRAMES = 4096 from rfl, min_def]
      clear hcf hlen hstep
      split_ifs <;> first | contradiction | omega
    · rw [hstep, host_next_frame_cur_frame, hlen]
      simp only [show MAX_FRAMES = 4096 from rfl, min_def]
      clear hcf hlen hstep
      split_ifs <;> first | contradiction | omega

lemma preprocessChars_of_not_contains :
    ∀ l : List Char, containsHexColor l = false → preprocessChars l = l := by
  intro l h
  induction l using preprocessChars.induct with
  | case1 => rfl
  | case2 d1 d2 d3 d4 d5 d6 rest hhex ih =>
    rw [containsHexColor] at h
    simp [hhex] at h
  | case3 d1 d2 d3 d4 d5 d6 rest hhex ih =>
    rw [containsHexColor] at h
    rw [preprocessChars]
    simp [hhex] at h ⊢
    exact ih h
  | case4 c cs hne ih =>
    have hcs : containsHexColor cs = false := by
      rw [containsHexColor.eq_def] at h
      split at h
      · rename_i d1 d2 d3 d4 d5 d6 rest heq
        injection heq with h1 h2
        exact (hne d1 d2 d3 d4 d5 d6 rest h1 h2).elim
      · rename_i c2 cs2 hmk heq
        injection heq with h1 h2
        rw [h2]
        exact h
      · rename_i heq
        exact (List.cons_ne_nil c cs heq).elim
    have hstep : preprocessChars (c :: cs) = c :: preprocessChars cs := by
      rw [preprocessChars.eq_def]
      split
      · rename_i heq
        exact (List.cons_ne_nil c cs heq).elim
      · rename_i d1 d2 d3 d4 d5 d6 rest heq
        injection heq with h1 h2
        exact (hne d1 d2 d3 d4 d5 d6 rest h1 h2).elim
      · rename_i c2 cs2 hmk heq
        injection heq with h1 h2
        rw [h1, h2]
    rw [hstep, ih hcs]

/-- C1: the claim says the 4097th capture fails leaving 4096 frames, but the
source checks `frames.len() > MAX_FRAMES`, so with exactly 4096 captured
frames `lua_next_frame` still succeeds and appends a 4097th frame; the
`FrameLimitExceeded` error only fires from 4097 stored frames on. -/
theorem lua_next_frame_cap_off_by_one (a : Animator) (buf : Buffer) :
    (a.frames.length = 4096 →
        (a.lua_next_frame buf).1 = .ok ()
      ∧ (a.lua_next_frame buf).2.frames.length = 4097)
  ∧ (a.frames.length = 4097 →
        a.lua_next_frame buf = (.err .frameLimitExceeded, a)) := by
  constructor
  · intro h
    unfold Animator.lua_next_frame
    rw [if_neg (by rw [h]; decide)]
    exact ⟨rfl, by simp [h]⟩
  · intro h
    unfold Animator.lua_next_frame
    rw [if_pos (by rw [h]; decide)]

theorem lua_next_frame_cap_off_by_one_witness :
    ((cappedAnimator 4096).lua_next_frame sampleBuffer).1 = .ok ()
  ∧ ((cappedAnimator 4096).lua_next_frame sampleBuffer).2.frames.length = 4097
  ∧ (cappedAnimator 4097).lua_next_frame sampleBuffer
      = (.err .frameLimitExceeded, cappedAnimator 4097) := by
  have hl1 : (cappedAnimator 4096).frames.length = 4096 := by
    show (List.replicate 4096 (sampleFrame 100)).length = 4096
    rw [List.length_replicate]
  have hl2 : (cappedAnimator 4097).frames.length = 4097 := by
    show (List.replicate 4097 (sampleFrame 100)).length = 4097
    rw [List.length_replicate]
  have h1 := (lua_next_frame_cap_off_by_one (cappedAnimator 4096) sampleBuffer).1 hl1
  have h2 := (lua_next_frame_cap_off_by_one (cappedAnimator 4097) sampleBuffer).2 hl2
  exact ⟨h1.1, h1.2, h2⟩

/-- C2 counterexample: a playing, looping, single-frame animator whose frame
stores 250 ms: after one duration-elapsed tick the index is still 0 but the
active duration is the default 100 ms, not the stored 250 ms. -/
theorem single_frame_loop_speed_cex :
    (oneFrameLoop.update_frame 251).map (fun p => (p.1.cur_frame, p.1.speed)) =
      some (0, DEFAULT_SPEEED)
  ∧ (oneFrameLoop.frames.map fun f => f.speed) = [250]
  ∧ DEFAULT_SPEEED ≠ 250 := by
  refine ⟨by decide, by decide, by decide⟩

/-- C2 amended: for a single-frame looping playing sequence every
duration-elapsed tick keeps `cur_frame` at 0 and `is_playing` true, but sets
the active duration for the next tick to the default 100 ms (the loop-wrap
branch), not to frame 0's stored duration. -/
theorem single_frame_loop_replays_at_default (a : Animator) (f : Frame) (e : Nat)
    (hf : a.frames = [f]) (hloop : a.is_loop = true) (hplay : a.is_playing = true)
    (he : a.speed < e) :
    a.update_frame e =
      some ({ a with
                cur_frame := 0
                speed := DEFAULT_SPEEED
                current_monitor_settings := f.settings },
            f.settings) := by
  have hge : a.frames.length ≤ a.cur_frame + 1 := by rw [hf]; simp
  have hn := next_frame_wrap a hge hloop
  rw [update_frame_advance a e _ hplay he hn]
  have hd : ({ a with speed := DEFAULT_SPEEED, cur_frame := 0 } : Animator).display_frame.2.2
      = f.settings := by
    unfold Animator.display_frame
    simp [hf]
  rw [hd]

theorem single_frame_loop_replays_at_default_witness :
    oneFrameLoop.update_frame 251 =
      some ({ oneFrameLoop with
                cur_frame := 0
                speed := DEFAULT_SPEEED
                current_monitor_settings := (sampleFrame 250).settings },
            (sampleFrame 250).settings) :=
  single_frame_loop_replays_at_default oneFrameLoop (sampleFrame 250) 251 rfl rfl rfl
    (by decide)

/-- C3: the claim says `print` fails with an `OutOfRange` error like the other
canvas operations, but the source indexes `layers[cur_layer]` without any
bounds check: with the active layer out of range and non-empty text the call
panics (slice index out of bounds) instead of raising a script error. -/
theorem print_out_of_range_panics (b : LuaBuffer) (s : String)
    (hl : b.buffer.layers.length ≤ b.cur_layer) (hs : s.data ≠ []) :
    b.print s = (.panicked, b) := by
  unfold LuaBuffer.print
  match hd : s.data with
  | [] => exact absurd hd hs
  | c :: cs =>
    rw [LuaBuffer.print_chars]
    have hconv : ∃ ch2, b.convert_from_unicode c.toString = .ok ch2 := by
      unfold LuaBuffer.convert_from_unicode
      have hone : (c.toString).data = [c] := rfl
      rw [hone]
      cases b.buffer.buffer_type <;> exact ⟨_, rfl⟩
    obtain ⟨ch2, hc⟩ := hconv
    simp only [hc, List.getElem?_eq_none hl]

theorem print_out_of_range_panics_witness :
    strandedBuffer.buffer.layers.length ≤ strandedBuffer.cur_layer
  ∧ strandedBuffer.print "A" = (.panicked, strandedBuffer) :=
  ⟨by decide, print_out_of_range_panics strandedBuffer "A" (by decide) (by decide)⟩

/-- C4: for every layer index at or past the layer count, the `layer` field
setter, `set_layer_position`, `set_layer_visible` (whose `i32` index is cast
through `usize`), and — via the active layer — `set_char` and `get_char` all
fail with the out-of-range error carrying the offending index and the layer
count, and return the canvas, cursor and active-layer state unchanged. -/
theorem layer_ops_out_of_range (b : LuaBuffer) (idx : Nat) (x y : Int)
    (ch : String) (vis : Bool) (hidx : b.buffer.layers.length ≤ idx) :
    b.set_layer idx = (.err (.outOfRange idx b.buffer.layers.length), b)
  ∧ b.set_layer_position idx x y = (.err (.outOfRange idx b.buffer.layers.length), b)
  ∧ (idx < 2 ^ 31 →
      b.set_layer_visible (idx : Int) vis =
        (.err (.outOfRange idx b.buffer.layers.length), b))
  ∧ (b.buffer.layers.length ≤ b.cur_layer →
        b.set_char x y ch = (.err (.outOfRange b.cur_layer b.buffer.layers.length), b)
      ∧ b.get_char x y = (.err (.outOfRange b.cur_layer b.buffer.layers.length), b)) := by
  refine ⟨?_, ?_, ?_, ?_⟩
  · unfold LuaBuffer.set_layer
    rw [if_neg (by omega)]
  · unfold LuaBuffer.set_layer_position
    rw [if_neg (by omega)]
  · intro h31
    unfold LuaBuffer.set_layer_visible
    simp only [usizeOfI32_natCast idx h31]
    rw [if_neg (by omega)]
  · intro hcur
    constructor
    · unfold LuaBuffer.set_char
      rw [if_pos hcur]
    · unfold LuaBuffer.get_char
      rw [if_pos hcur]

theorem layer_ops_out_of_range_witness :
    strandedBuffer.set_layer 5 = (.err (.outOfRange 5 1), strandedBuffer)
  ∧ strandedBuffer.set_layer_position 5 0 0 = (.err (.outOfRange 5 1), strandedBuffer)
  ∧ strandedBuffer.set_layer_visible (5 : Int) true
      = (.err (.outOfRange 5 1), strandedBuffer)
  ∧ strandedBuffer.set_char 0 0 "A" = (.err (.outOfRange 1 1), strandedBuffer)
  ∧ strandedBuffer.get_char 0 0 = (.err (.outOfRange 1 1), strandedBuffer) := by
  have h := layer_ops_out_of_range strandedBuffer 5 0 0 "A" true (by decide)
  have h4 := h.2.2.2 (by decide)
  exact ⟨h.1, h.2.1, h.2.2.1 (by decide), h4.1, h4.2⟩

/-- C5: with N>1 frames, loop off, playing from index 0, duration-elapsed
ticks advance `cur_frame` by one up to N−1 (`min k (N−1)` after k ticks);
the tick after reaching N−1 turns `is_playing` off (`k < N` as a Boolean),
and once paused any further `update_frame` call leaves the state unchanged,
so the index never leaves N−1. -/
theorem nonloop_playback_monotone (a : Animator) (N : Nat) (hN : a.frames.length = N)
    (h1 : 1 < N) (hcur : a.cur_frame = 0) (hplay : a.is_playing = true)
    (hloop : a.is_loop = false) :
    (∀ k, (Animator.forced_tick^[k] a).cur_frame = min k (N - 1)
        ∧ (Animator.forced_tick^[k] a).is_playing = decide (k < N))
  ∧ (∀ s : Animator, ∀ e, s.is_playing = false →
        s.update_frame e = some (s, s.current_monitor_settings)) := by
  refine ⟨fun k => ?_, fun s e h => update_frame_not_playing s e h⟩
  obtain ⟨-, -, h3, h4⟩ := nonloop_iterate_inv a N hN h1 hcur hplay hloop k
  exact ⟨h3, h4⟩

theorem nonloop_playback_monotone_witness :
    ((Animator.forced_tick^[3] twoFrames).cur_frame = min 3 (2 - 1)
      ∧ (Animator.forced_tick^[3] twoFrames).is_playing = decide (3 < 2))
  ∧ pausedTwo.update_frame 9999 = some (pausedTwo, pausedTwo.current_monitor_settings) := by
  have h := nonloop_playback_monotone twoFrames 2 (by decide) (by decide) rfl rfl rfl
  exact ⟨h.1 3, h.2 pausedTwo 9999 rfl⟩

/-- C6: `update_frame` is a no-op unless the elapsed time strictly exceeds the
active duration, and an advancing call moves the index by exactly one
(whenever a next frame exists), however large the elapsed time is. -/
theorem update_frame_one_step (a : Animator) (e : Nat) :
    (e ≤ a.speed → a.update_frame e = some (a, a.current_monitor_settings))
  ∧ (a.is_playing = true → a.speed < e → a.cur_frame + 1 < a.frames.length →
      ∃ p : Animator × MonitorSettings,
        a.update_frame e = some p ∧ p.1.cur_frame = a.cur_frame + 1) := by
  refine ⟨update_frame_small_elapsed a e, fun hp he hlt => ?_⟩
  have hn := next_frame_advance a (a.frames[a.cur_frame + 1])
    (List.getElem?_eq_getElem hlt)
  rw [update_frame_advance a e _ hp he hn]
  exact ⟨_, rfl, rfl⟩

theorem update_frame_one_step_witness :
    twoFrames.update_frame 200 = some (twoFrames, twoFrames.current_monitor_settings)
  ∧ (∃ p : Animator × MonitorSettings,
        twoFrames.update_frame 260 = some p ∧ p.1.cur_frame = twoFrames.cur_frame + 1) :=
  ⟨(update_frame_one_step twoFrames 200).1 (by decide),
   (update_frame_one_step twoFrames 260).2 rfl (by decide) (by decide)⟩

/-- C7 counterexample: with the active duration overridden to 999 ms by
`set_speed`, seeking to the currently displayed frame (index 0, stored
duration 250 ms) changes the active duration back to 250, so the seek is not
a no-op on duration. -/
theorem set_cur_frame_discards_override_cex :
    (overriddenAnim.set_cur_frame overriddenAnim.cur_frame).map (fun a2 => a2.speed)
      = some 250
  ∧ overriddenAnim.speed = 999 := by
  exact ⟨by decide, by decide⟩

/-- C7 amended: `set_cur_frame i` always reloads the active duration from
frame i's stored duration, discarding any `set_speed` override; seeking to
the current frame is a duration no-op only when the active duration already
equals that frame's stored duration. -/
theorem set_cur_frame_loads_stored_duration (a : Animator) (i : Nat) (f : Frame)
    (hf : a.frames[i]? = some f) :
    a.set_cur_frame i = some { a with cur_frame := i, speed := f.speed }
  ∧ (i = a.cur_frame → a.speed = f.speed → a.set_cur_frame i = some a) := by
  constructor
  · unfold Animator.set_cur_frame
    rw [hf]
  · intro hi hsp
    unfold Animator.set_cur_frame
    rw [hf]
    show some { a with cur_frame := i, speed := f.speed } = some a
    rw [hi, ← hsp]

theorem set_cur_frame_loads_stored_duration_witness :
    seekAnim.set_cur_frame 0 = some { seekAnim with cur_frame := 0, speed := 250 }
  ∧ seekAnim.set_cur_frame 0 = some seekAnim := by
  have h := set_cur_frame_loads_stored_duration seekAnim 0 (sampleFrame 250) rfl
  exact ⟨h.1, h.2 rfl rfl⟩

/-- An arbitrary script fragment with no color-literal match, used as witness
input for the preprocessing identity. -/
def plainScript : String := "gotoxy(1, 2) print(hi)"

/-- C8: the preprocessing pass rewrites a `#`+6-hex-digit color literal into
the decimal `r,g,b` triple of its three byte pairs — the spec's scenario
`#FF00AA` becomes `255,0,170` in place — and leaves any text without a match
unchanged. -/
theorem hex_literal_preprocessing (s : String) :
    preprocess sampleScript = "print(255,0,170)"
  ∧ (containsHexColor s.data = false → preprocess s = s) := by
  constructor
  · decide
  · intro h
    unfold preprocess
    rw [preprocessChars_of_not_contains s.data h]

theorem hex_literal_preprocessing_witness :
    preprocess sampleScript = "print(255,0,170)"
  ∧ preprocess plainScript = plainScript :=
  ⟨(hex_literal_preprocessing plainScript).1,
   (hex_literal_preprocessing plainScript).2 (by decide)⟩

/-- C9: playback over an empty or out-of-range frame sequence is inert:
`display_frame` leaves the animator unchanged (it is a `&self` read, returned
as-is), emits no snapshot, and returns the default monitor settings whenever
the current index is at or past the frame count; `update_frame` over an empty
sequence never panics and returns default settings. -/
theorem empty_playback_inert (a : Animator) (e : Nat) :
    (a.frames.length ≤ a.cur_frame →
        a.display_frame = (a, none, MonitorSettings.default))
  ∧ (a.frames = [] → a.current_monitor_settings = MonitorSettings.neutral →
        ∃ a2, a.update_frame e = some (a2, MonitorSettings.default)) := by
  constructor
  · intro h
    unfold Animator.display_frame
    rw [List.getElem?_eq_none h]
  · intro hf hcm
    by_cases hc : a.is_playing = true ∧ e > a.speed
    · have hge : a.frames.length ≤ a.cur_frame + 1 := by rw [hf]; simp
      cases hl : a.is_loop
      · have hn := next_frame_clamp a hge hl
        rw [update_frame_advance a e _ hc.1 hc.2 hn]
        have hd : ({ a with cur_frame := a.cur_frame + 1 - 1, is_playing := false } :
            Animator).display_frame.2.2 = MonitorSettings.default := by
          unfold Animator.display_frame
          rw [List.getElem?_eq_none (by simp [hf])]
        rw [hd]
        exact ⟨_, rfl⟩
      · have hn := next_frame_wrap a hge hl
        rw [update_frame_advance a e _ hc.1 hc.2 hn]
        have hd : ({ a with speed := DEFAULT_SPEEED, cur_frame := 0 } :
            Animator).display_frame.2.2 = MonitorSettings.default := by
          unfold Animator.display_frame
          rw [List.getElem?_eq_none (by simp [hf])]
        rw [hd]
        exact ⟨_, rfl⟩
    · rw [Animator.update_frame, if_neg hc]
      exact ⟨a, by rw [hcm, show MonitorSettings.neutral = MonitorSettings.default from rfl]⟩

theorem empty_playback_inert_witness :
    Animator.default.display_frame = (Animator.default, none, MonitorSettings.default)
  ∧ ∃ a2, Animator.default.update_frame 0 = some (a2, MonitorSettings.default) := by
  have h := empty_playback_inert Animator.default 0
  exact ⟨h.1 (by decide), h.2 rfl rfl⟩

/-- C10 counterexample: the claim that `cur_frame` equals k+1 after the k-th
`next_frame` call fails once captures keep failing: after 4099 calls the
frame count is stuck at 4097, so the global is 4097 + 2 = 4099, not 4100. -/
theorem cur_frame_global_cex :
    (run_captures sampleBuffer 4099).2.cur_frame = 4099
  ∧ (run_captures sampleBuffer 4099).2.cur_frame ≠ 4099 + 1 := by
  have h := (run_captures_inv sampleBuffer 4099).2
  rw [h]
  constructor <;> decide

/-- C10 amended: `cur_frame` is seeded to 1 (the k = 0 case) and is set to the
frame count plus 2 on every call, so immediately after the k-th `next_frame`
call it equals k + 1 for every k ≤ 4098, i.e. up to and including the first
frame-limit failure (the code stores up to 4097 frames); after that it stops
growing. -/
theorem cur_frame_global_tracks_captures (buf : Buffer) (k : Nat) (hk : k ≤ 4098) :
    (run_captures buf k).2.cur_frame = k + 1 := by
  have h := (run_captures_inv buf k).2
  rw [h]
  rcases Nat.eq_zero_or_pos k with h0 | h0
  · simp [h0]
  · rw [if_neg (by omega)]
    simp only [show MAX_FRAMES = 4096 from rfl, min_def]
    split_ifs <;> omega

theorem cur_frame_global_tracks_captures_witness :
    (run_captures sampleBuffer 2).2.cur_frame = 2 + 1 :=
  cur_frame_global_tracks_captures sampleBuffer 2 (by omega)
